import Mathlib

/-!
Shallow embedding of src/core/modules/memory/memory_tools.cpp (Source.Python
memory tools: the CPointer raw-pointer operations, the CFunction dynamic call
and the hook registration maps).  Machine integers are modelled as Nat with
explicit reduction modulo the 32-bit word size where the C unsigned long
arithmetic can wrap; memory is a byte-addressed total map; operations that can
raise a Python exception return Except over an error-kind enumeration that
mirrors the raised messages.
-/

namespace MemoryTools

/-- Error kinds of the memory tools.  Each constructor corresponds to one of
the exception messages raised in the C++ source: invalidPointer for the
NULL-pointer messages, rangeTooSmall for the search-range message,
overlapViolation for the overlapping-pointers message, argCountMismatch for
the argument-count message, unsupportedType for the unknown argument or
return type messages, and notHooked for the not-hooked message. -/
inductive Err where
  | invalidPointer
  | rangeTooSmall
  | overlapViolation
  | argCountMismatch
  | unsupportedType
  | notHooked
deriving DecidableEq

/-- Byte-addressed memory: the byte stored at each address.  Cells are read
modulo 256 wherever the C code reads through an unsigned char pointer. -/
def Mem : Type := Nat → Nat

/-- The word size of the target platform: unsigned long is 32 bits wide. -/
def wsize : Nat := 2 ^ 32

/-- Addition of unsigned longs: wraps modulo the word size. -/
def uadd (a b : Nat) : Nat := (a + b) % wsize

/-- Subtraction of unsigned longs: wraps modulo the word size (valid for a
left operand below the word size). -/
def usub (a b : Nat) : Nat := (a + wsize - b % wsize) % wsize

/-- Address arithmetic mixing an unsigned long base with a signed int offset,
as the C conversion rules compute it: the sum reduced modulo the word size. -/
def offAddr (a : Nat) (o : Int) : Nat := (((a : Int) + o) % (wsize : Int)).toNat

/-- Update one byte of memory. -/
def memUpd (mem : Mem) (a v : Nat) : Mem := fun x => if x = a then v else mem x

/-- Read an n-byte little-endian value starting at address a. -/
def readBytesLE (mem : Mem) : Nat → Nat → Nat
  | _, 0 => 0
  | a, n + 1 => mem a % 256 + 256 * readBytesLE mem (a + 1) n

/-- The unsigned long stored at address a (4 bytes, little-endian). -/
def wordAt (mem : Mem) (a : Nat) : Nat := readBytesLE mem a 4

/-- Write v as an n-byte little-endian value starting at address a. -/
def writeBytesLE (mem : Mem) : Nat → Nat → Nat → Mem
  | _, _, 0 => mem
  | a, v, n + 1 => writeBytesLE (memUpd mem a (v % 256)) (a + 1) (v / 256) n

/-- Store an unsigned long at address a (4 bytes, little-endian). -/
def storeWord (mem : Mem) (a v : Nat) : Mem := writeBytesLE mem a v 4

/-- CPointer::IsValid: the wrapped address is non-zero. -/
def IsValid (addr : Nat) : Bool := decide (addr ≠ 0)

/-- CPointer::GetStringArray (source lines 62-68): raises the NULL-pointer
error when invalid, otherwise returns the char pointer at address plus
offset (the string conversion itself happens in the binding layer). -/
def GetStringArray (addr : Nat) (iOffset : Int) : Except Err Nat :=
  if addr = 0 then .error .invalidPointer
  else .ok (offAddr addr iOffset)

/-- CPointer::GetPtr (source lines 78-84): raises the NULL-pointer error when
invalid, otherwise reads the unsigned long at address plus offset and wraps
it as a new pointer. -/
def GetPtr (addr : Nat) (iOffset : Int) (mem : Mem) : Except Err Nat :=
  if addr = 0 then .error .invalidPointer
  else .ok (wordAt mem (offAddr addr iOffset))

/-- CPointer::SetPtr (source lines 86-92): raises the NULL-pointer error when
invalid, otherwise stores the other address as an unsigned long.  The write
in the source is to m_ulAddr itself: the iOffset parameter is declared but
never used in the body. -/
def SetPtr (addr : Nat) (ptrAddr : Nat) (iOffset : Int) (mem : Mem) :
    Except Err Mem :=
  if addr = 0 then .error .invalidPointer
  else .ok (storeWord mem addr ptrAddr)

/-- Byte-wise comparison of n bytes at two addresses (memcmp), with the
result collapsed to the sign of the first differing byte pair. -/
def memcmpBytes (mem : Mem) : Nat → Nat → Nat → Int
  | _, _, 0 => 0
  | a, b, n + 1 =>
    if mem a % 256 = mem b % 256 then memcmpBytes mem (a + 1) (b + 1) n
    else if mem a % 256 < mem b % 256 then -1 else 1

/-- CPointer::Compare (source lines 94-101): raises the NULL-pointer error
when either address is zero, otherwise a memcmp over ulNum bytes. -/
def Compare (addr otherAddr n : Nat) (mem : Mem) : Except Err Int :=
  if addr = 0 ∨ otherAddr = 0 then .error .invalidPointer
  else .ok (memcmpBytes mem addr otherAddr n)

/-- CPointer::IsOverlapping (source lines 103-110): pure comparison of the
two address ranges in unsigned long arithmetic.  Note that the source body
performs no validity check on either address. -/
def IsOverlapping (addr otherAddr n : Nat) : Bool :=
  if addr ≤ otherAddr then decide (uadd addr n > otherAddr)
  else decide (uadd otherAddr n > addr)

/-- The inner loop of CPointer::SearchBytes (source lines 128-136): position
i matches when the memory byte equals 0x2A or the pattern byte equals the
memory byte.  The 0x2A wildcard test in the source reads base[i], the
memory byte, not bytes[i], the pattern byte. -/
def matchAt (mem : Mem) : Nat → List Nat → Bool
  | _, [] => true
  | base, p :: ps =>
    (decide (mem base % 256 = 42) || decide (p = mem base % 256)) &&
      matchAt mem (base + 1) ps

/-- The while loop of CPointer::SearchBytes (source lines 126-142), with the
iteration count made explicit: scan positions base, base+1, ... while the
fuel lasts, returning the first matching position. -/
def searchLoop (mem : Mem) (pattern : List Nat) : Nat → Nat → Option Nat
  | 0, _ => none
  | fuel + 1, base =>
    if matchAt mem base pattern then some base
    else searchLoop mem pattern fuel (base + 1)

/-- CPointer::SearchBytes (source lines 112-144): raises the NULL-pointer
error when invalid, raises the range-too-small error when ulNumBytes is
below the pattern length, otherwise scans from the base address up to the
end pointer base + ulNumBytes - (length - 1) computed in unsigned long
arithmetic. -/
def SearchBytes (addr : Nat) (pattern : List Nat) (n : Nat) (mem : Mem) :
    Except Err (Option Nat) :=
  if addr = 0 then .error .invalidPointer
  else if n < pattern.length then .error .rangeTooSmall
  else
    .ok (searchLoop mem pattern
      (usub (uadd addr n) (usub pattern.length 1) - addr) addr)

/-- Simultaneous block copy of n bytes from src to dst, the semantics of
memcpy on disjoint ranges and of memmove on any ranges. -/
def blockCopy (mem : Mem) (dst src n : Nat) : Mem :=
  fun a => if dst ≤ a ∧ a < dst + n then mem (src + (a - dst)) else mem a

/-- CPointer::Copy (source lines 146-156).  The NULL test in the source is
the condition (!m_ulAddr || ulDest): it raises when the source address is
zero or when the destination address is NON-zero (the destination test is
not negated, unlike the one in CPointer::Move).  When no error is raised it
checks for overlap and then performs a memcpy. -/
def Copy (addr destAddr n : Nat) (mem : Mem) : Except Err Mem :=
  if addr = 0 ∨ destAddr ≠ 0 then .error .invalidPointer
  else if IsOverlapping addr destAddr n then .error .overlapViolation
  else .ok (blockCopy mem destAddr addr n)

/-- CPointer::Move (source lines 158-165): raises the NULL-pointer error
when either address is zero, otherwise a memmove of ulNumBytes. -/
def Move (addr destAddr n : Nat) (mem : Mem) : Except Err Mem :=
  if addr = 0 ∨ destAddr = 0 then .error .invalidPointer
  else .ok (blockCopy mem destAddr addr n)

/-- CPointer::GetVirtualFunc (source lines 167-177): raises the NULL-pointer
error when invalid; reads the vtable pointer at the address, returns a null
pointer when the vtable pointer is zero, otherwise the index-th entry of
the table (pointer arithmetic in 4-byte words). -/
def GetVirtualFunc (addr : Nat) (iIndex : Int) (mem : Mem) : Except Err Nat :=
  if addr = 0 then .error .invalidPointer
  else
    let vtable := wordAt mem addr
    if vtable = 0 then .ok 0
    else .ok (wordAt mem (offAddr vtable (4 * iIndex)))

/-- A CPointer object: wraps exactly one address (the m_ulAddr field). -/
structure CPtr where
  m_ulAddr : Nat
deriving DecidableEq

/-- Object-level CPointer::GetPtr: the pair of the returned fresh pointer
and the poststate of the receiver.  The source body contains no assignment
to m_ulAddr, so the receiver component is the receiver unchanged. -/
def GetPtrObj (self : CPtr) (iOffset : Int) (mem : Mem) :
    Except Err CPtr × CPtr :=
  ((GetPtr self.m_ulAddr iOffset mem).map CPtr.mk, self)

/-- Object-level CPointer::GetVirtualFunc: returned fresh pointer together
with the receiver poststate (no field assignment in the source body). -/
def GetVirtualFuncObj (self : CPtr) (iIndex : Int) (mem : Mem) :
    Except Err CPtr × CPtr :=
  ((GetVirtualFunc self.m_ulAddr iIndex mem).map CPtr.mk, self)

/-- Object-level CPointer::SearchBytes: returned fresh pointer option
together with the receiver poststate (no field assignment in the source
body). -/
def SearchBytesObj (self : CPtr) (pattern : List Nat) (n : Nat) (mem : Mem) :
    Except Err (Option CPtr) × CPtr :=
  ((SearchBytes self.m_ulAddr pattern n mem).map (fun r => r.map CPtr.mk),
    self)

/-- Object-level CPointer::Compare: comparison result together with the
poststates of the receiver and the argument pointer (no field assignment in
the source body). -/
def CompareObj (self other : CPtr) (n : Nat) (mem : Mem) :
    Except Err Int × CPtr × CPtr :=
  (Compare self.m_ulAddr other.m_ulAddr n mem, self, other)

/-- Object-level CPointer::Copy: resulting memory together with the
poststates of the receiver and the destination pointer (no field assignment
in the source body). -/
def CopyObj (self dest : CPtr) (n : Nat) (mem : Mem) :
    Except Err Mem × CPtr × CPtr :=
  (Copy self.m_ulAddr dest.m_ulAddr n mem, self, dest)

/-- Object-level CPointer::Move: resulting memory together with the
poststates of the receiver and the destination pointer (no field assignment
in the source body). -/
def MoveObj (self dest : CPtr) (n : Nat) (mem : Mem) :
    Except Err Mem × CPtr × CPtr :=
  (Move self.m_ulAddr dest.m_ulAddr n mem, self, dest)

/-- Hook phases (DynamicHooks::HookType_t): pre and post callbacks. -/
inductive HookType where
  | pre
  | post
deriving DecidableEq

/-- The global hooking state: the set of hooked addresses (the manager
records created by HookFunction), the per-hook per-phase registration of the
internal SP_HookHandler (CHook::AddCallback, which de-duplicates), and the
per-hook per-phase lists of Python callback handles (g_mapCallbacks).
Callback handles are opaque and modelled as Nat. -/
structure HookState where
  hooked : List Nat
  handlerAdded : Nat → HookType → Bool
  callbacks : Nat → HookType → List Nat

/-- CFunction::AddHook (source lines 276-296): raises the NULL-pointer error
when the function address is zero; otherwise creates the hook record if the
address is not hooked yet, registers the internal SP_HookHandler for the
phase (de-duplicated: the flag is simply set), appends the Python callback
to the phase list of g_mapCallbacks with an unconditional push_back, and
returns the callback handle that was passed in. -/
def AddHook (addr : Nat) (eType : HookType) (pCallable : Nat)
    (s : HookState) : Except Err (Nat × HookState) :=
  if addr = 0 then .error .invalidPointer
  else
    .ok (pCallable,
      ⟨if addr ∈ s.hooked then s.hooked else addr :: s.hooked,
       fun a t => if a = addr ∧ t = eType then true else s.handlerAdded a t,
       fun a t =>
         if a = addr ∧ t = eType then s.callbacks a t ++ [pCallable]
         else s.callbacks a t⟩)

/-- CFunction::RemoveHook (source lines 298-308): raises the NULL-pointer
error when the function address is zero; a no-op when FindHook returns no
record; otherwise removes from the phase list every entry equal to the
handle (the semantics of std::list::remove). -/
def RemoveHook (addr : Nat) (eType : HookType) (pCallable : Nat)
    (s : HookState) : Except Err HookState :=
  if addr = 0 then .error .invalidPointer
  else if addr ∈ s.hooked then
    .ok ⟨s.hooked, s.handlerAdded,
      fun a t =>
        if a = addr ∧ t = eType then
          (s.callbacks a t).filter (fun x => decide (x ≠ pCallable))
        else s.callbacks a t⟩
  else .ok s

/-- The dyncall type tags used by CFunction::Call (the DC_SIGCHAR values
appearing in the argument and return switches). -/
inductive TypeTag where
  | bool
  | char
  | uchar
  | short
  | ushort
  | int
  | uint
  | long
  | ulong
  | longlong
  | ulonglong
  | float
  | double
  | pointer
  | string
  | void
deriving DecidableEq

/-- Events of a dynamic call in order: the call VM reset, one push per
argument tagged by its type, and the native invocation of the target. -/
inductive CallEvent where
  | reset
  | pushArg (t : TypeTag) (v : Nat)
  | native (addr : Nat)
deriving DecidableEq

/-- The argument-marshaling loop of CFunction::Call (source lines 216-238):
each argument is pushed onto the VM tagged by its declared type; the void
tag falls through to the default case, which raises the unknown-argument
error.  The case of more arguments than declared tags is unreachable from
Call, which has already checked the lengths. -/
def marshalArgs : List Nat → List TypeTag → Except Err (List CallEvent)
  | [], _ => .ok []
  | _ :: _, [] => .ok []
  | v :: vs, t :: ts =>
    if t = TypeTag.void then .error .unsupportedType
    else (marshalArgs vs ts).map (fun rest => CallEvent.pushArg t v :: rest)

/-- CFunction::Call (source lines 203-262), with the native invocation kept
abstract as an event trace: raises the NULL-pointer error when the function
address is zero, raises the argument-count error when the number of passed
arguments differs from the declared parameter count, and only then resets
the VM, marshals the arguments in order and invokes the target address. -/
def Call (addr : Nat) (m_Args : List TypeTag) (args : List Nat) :
    Except Err (List CallEvent) :=
  if addr = 0 then .error .invalidPointer
  else if args.length ≠ m_Args.length then .error .argCountMismatch
  else
    (marshalArgs args m_Args).map
      (fun pushes => CallEvent.reset :: pushes ++ [CallEvent.native addr])

/-- The spec-side reading of range intersection, written from the words of
the specification: the half-open byte ranges of length n based at A and at
B have a common element. -/
def rangesIntersect (A B n : Nat) : Prop :=
  ∃ x, (A ≤ x ∧ x < A + n) ∧ (B ≤ x ∧ x < B + n)

/-- All-zero memory, used as a concrete evaluation state. -/
def zeroMem : Mem := fun _ => 0

/-- Memory holding the byte 0x2A everywhere, used as a concrete evaluation
state. -/
def fortyTwoMem : Mem := fun _ => 42

/-- A concrete hook state: address 100 hooked, with the handle 7 registered
twice in the pre-phase list. -/
def hookDemo : HookState :=
  ⟨[100], fun _ _ => false,
   fun a t => if a = 100 ∧ t = HookType.pre then [7, 7] else []⟩

/-- The empty hook state: nothing hooked, no callbacks. -/
def emptyHooks : HookState := ⟨[], fun _ _ => false, fun _ _ => []⟩

/-- C1: evaluation of CPointer::Copy at a failing input.  Both addresses
are non-zero and the four-byte ranges at 1000 and 2000 are disjoint, so the
claim says the copy succeeds; the code raises the NULL-pointer error,
because its NULL test `!m_ulAddr || ulDest` fires whenever the destination
address is non-zero.  For contrast, Move on the same input does not raise
the NULL-pointer error. -/
theorem c1_copy_null_check_bug :
    Copy 1000 2000 4 zeroMem = .error .invalidPointer ∧
    IsOverlapping 1000 2000 4 = false ∧
    Move 1000 2000 4 zeroMem ≠ .error .invalidPointer := by
  refine ⟨rfl, by decide, ?_⟩
  have h : Move 1000 2000 4 zeroMem = .ok (blockCopy zeroMem 2000 1000 4) :=
    rfl
  rw [h]
  simp

/-- C2: evaluation of CPointer::SearchBytes at failing inputs.  First: the
all-wildcard pattern of length 1 over a search range of length 1 at address
100 in all-zero memory finds no match, though the claim says it matches at
the first position, because the source tests the memory byte, not the
pattern byte, against the 0x2A wildcard.  Second: a pattern without any
wildcard byte matches all-0x2A memory at the first position, showing that
the wildcard is in fact applied to the searched memory. -/
theorem c2_search_wildcard_bug :
    SearchBytes 100 [42] 1 zeroMem = .ok none ∧
    SearchBytes 100 [7] 1 fortyTwoMem = .ok (some 100) := by
  exact ⟨rfl, rfl⟩

/-- C3: evaluation of CPointer::SetPtr followed by CPointer::GetPtr at a
failing input.  Writing the pointer 5 at offset 4 of the pointer 100 and
then dereferencing at offset 4 yields 0, not 5, because SetPtr ignores its
offset parameter; dereferencing at offset 0 instead yields 5, showing that
the write landed at the base address. -/
theorem c3_setptr_offset_bug :
    (SetPtr 100 5 4 zeroMem).toOption.bind
      (fun m => (GetPtr 100 4 m).toOption) = some 0 ∧
    (SetPtr 100 5 4 zeroMem).toOption.bind
      (fun m => (GetPtr 100 0 m).toOption) = some 5 := by
  exact ⟨rfl, rfl⟩

/-- C4 counterexample: CPointer::IsOverlapping invoked on a pointer whose
address is 0 does not fail with the InvalidPointer condition; it performs
its range computation and returns an ordinary boolean (here true), because
the source body contains no validity check. -/
theorem c4_overlap_no_check : IsOverlapping 0 5 10 = true := by decide

/-- C4 (amended): every memory-touching CPointer operation named by the
claim other than Overlaps (Compare, SearchBytes, CopyTo, MoveTo,
ReadString, Dereference) fails with the InvalidPointer condition when the
invoked-on address is 0, for every other argument and every memory state,
hence before touching any memory; Overlaps/IsOverlapping alone performs no
validity check. -/
theorem c4_null_checks (otherAddr n : Nat) (off : Int) (pattern : List Nat)
    (mem : Mem) :
    Compare 0 otherAddr n mem = .error .invalidPointer ∧
    SearchBytes 0 pattern n mem = .error .invalidPointer ∧
    Copy 0 otherAddr n mem = .error .invalidPointer ∧
    Move 0 otherAddr n mem = .error .invalidPointer ∧
    GetStringArray 0 off = .error .invalidPointer ∧
    GetPtr 0 off mem = .error .invalidPointer := by
  refine ⟨?_, ?_, ?_, ?_, ?_, ?_⟩ <;>
    simp [Compare, SearchBytes, Copy, Move, GetStringArray, GetPtr]

/-- C8: for every valid pointer, SearchBytes fails with RangeTooSmall
exactly when the search length is strictly below the pattern length, for
every memory state (so before scanning any memory). -/
theorem c8_search_range (addr : Nat) (pattern : List Nat) (n : Nat)
    (mem : Mem) (h : addr ≠ 0) :
    SearchBytes addr pattern n mem = .error .rangeTooSmall ↔
      n < pattern.length := by
  unfold SearchBytes
  rw [if_neg h]
  by_cases h2 : n < pattern.length
  · rw [if_pos h2]
    simp [h2]
  · rw [if_neg h2]
    simp [h2]

/-- C8 witness: the theorem applied at the pointer 100, the pattern
[1, 2, 3] and the search length 2. -/
theorem c8_search_range_witness :
    SearchBytes 100 [1, 2, 3] 2 zeroMem = .error .rangeTooSmall ↔
      2 < ([1, 2, 3] : List Nat).length :=
  c8_search_range 100 [1, 2, 3] 2 zeroMem (by decide)

/-- C10: no CPointer operation modifies the wrapped address of the pointer
it is invoked on or of any pointer passed to it: the object-level
embeddings of GetPtr (Dereference), GetVirtualFunc (VirtualTableEntry) and
SearchBytes return freshly constructed pointers and leave the receiver
unchanged, and Compare, Copy and Move leave both operand pointers
unchanged. -/
theorem c10_frame (self other dest : CPtr) (off idx : Int)
    (pattern : List Nat) (n : Nat) (mem : Mem) :
    (GetPtrObj self off mem).2 = self ∧
    (GetVirtualFuncObj self idx mem).2 = self ∧
    (SearchBytesObj self pattern n mem).2 = self ∧
    (CompareObj self other n mem).2 = (self, other) ∧
    (CopyObj self dest n mem).2 = (self, dest) ∧
    (MoveObj self dest n mem).2 = (self, dest) :=
  ⟨rfl, rfl, rfl, rfl, rfl, rfl⟩

/-- C5 counterexample: removing the handle 7 from the pre-phase list
[7, 7] of the hooked address 100 empties the list entirely; the claim says
only the first matching entry is removed and the later duplicate remains,
which would leave [7]. -/
theorem c5_remove_all_counterexample :
    (RemoveHook 100 HookType.pre 7 hookDemo).toOption.map
      (fun s2 => s2.callbacks 100 HookType.pre) = some [] ∧
    ([] : List Nat) ≠ [7] := by
  exact ⟨rfl, by decide⟩

/-- C5 (amended): for every hooked address, phase and callback handle,
RemoveHook is a no-op when no hook record exists for the address, and
otherwise removes from the phase list every entry equal to the handle (the
std::list::remove semantics); removing an absent handle is in particular a
no-op on the list. -/
theorem c5_remove_hook_amended (addr : Nat) (t : HookType) (cb : Nat)
    (s : HookState) (h : addr ≠ 0) :
    (addr ∉ s.hooked → RemoveHook addr t cb s = .ok s) ∧
    (addr ∈ s.hooked →
      (RemoveHook addr t cb s).toOption.map (fun s2 => s2.callbacks addr t)
        = some ((s.callbacks addr t).filter (fun x => decide (x ≠ cb)))) := by
  constructor
  · intro h2
    unfold RemoveHook
    rw [if_neg h, if_neg h2]
  · intro h2
    unfold RemoveHook
    rw [if_neg h, if_pos h2]
    simp [Except.toOption]

/-- C5 witness: the amended theorem applied to the hooked address 100 with
the pre-phase list [7, 7] of the concrete demo state. -/
theorem c5_remove_hook_witness :
    (RemoveHook 100 HookType.pre 7 hookDemo).toOption.map
      (fun s2 => s2.callbacks 100 HookType.pre)
      = some ((hookDemo.callbacks 100 HookType.pre).filter
          (fun x => decide (x ≠ 7))) :=
  (c5_remove_hook_amended 100 HookType.pre 7 hookDemo (by decide)).2
    (by decide)

/-- C6 counterexample: two AddHook calls with the same callback handle 7 on
the same address and phase leave the handle in the phase list twice; the
claim says identity-based de-duplication prevents any handle from appearing
twice. -/
theorem c6_dup_counterexample :
    ((AddHook 100 HookType.pre 7 emptyHooks).toOption.bind
      (fun p => (AddHook 100 HookType.pre 7 p.2).toOption)).map
      (fun p => p.2.callbacks 100 HookType.pre) = some [7, 7] ∧
    ([7, 7] : List Nat).count 7 = 2 := by
  exact ⟨rfl, by decide⟩

/-- C6 (amended): AddHook appends the given callback handle to the phase
list unconditionally (the de-duplication in the source applies only to the
internal SP_HookHandler registration, not to the supplied handle), so a
handle already present is appended again; the call returns the same handle
that was passed in. -/
theorem c6_add_hook_amended (addr : Nat) (t : HookType) (cb : Nat)
    (s : HookState) (h : addr ≠ 0) :
    (AddHook addr t cb s).toOption.map Prod.fst = some cb ∧
    (AddHook addr t cb s).toOption.map (fun p => p.2.callbacks addr t)
      = some (s.callbacks addr t ++ [cb]) := by
  unfold AddHook
  rw [if_neg h]
  constructor
  · rfl
  · simp [Except.toOption]

/-- C6 witness: the amended theorem applied to the demo state, where the
handle 7 is already present twice in the pre-phase list of address 100, so
the append produces a third occurrence. -/
theorem c6_add_hook_witness :
    (AddHook 100 HookType.pre 7 hookDemo).toOption.map Prod.fst = some 7 ∧
    (AddHook 100 HookType.pre 7 hookDemo).toOption.map
      (fun p => p.2.callbacks 100 HookType.pre)
      = some (hookDemo.callbacks 100 HookType.pre ++ [7]) :=
  c6_add_hook_amended 100 HookType.pre 7 hookDemo (by decide)

/-- Helper: the marshaling loop of CFunction::Call never produces the
argument-count error; its only error is the unknown-argument-type one. -/
theorem marshalArgs_ne_argCount (vs : List Nat) (ts : List TypeTag) :
    marshalArgs vs ts ≠ .error .argCountMismatch := by
  induction vs generalizing ts with
  | nil => cases ts <;> simp [marshalArgs]
  | cons v vs ih =>
    cases ts with
    | nil => simp [marshalArgs]
    | cons t ts =>
      simp only [marshalArgs]
      by_cases ht : t = TypeTag.void
      · rw [if_pos ht]
        simp
      · rw [if_neg ht]
        cases hm : marshalArgs vs ts with
        | ok l => simp [Except.map]
        | error e =>
          have he := ih ts
          rw [hm] at he
          simp only [Except.map, Except.error.injEq]
          intro hc
          exact he (by rw [hc])

/-- C7: for every function descriptor with non-zero address and every
argument list, Call fails with ArgumentCountMismatch exactly when the
number of supplied arguments differs from the declared parameter count; the
check precedes the VM reset, the marshaling and the native invocation, so
on mismatch no call event is produced at all. -/
theorem c7_call_arg_count (addr : Nat) (m_Args : List TypeTag)
    (args : List Nat) (h : addr ≠ 0) :
    Call addr m_Args args = .error .argCountMismatch ↔
      args.length ≠ m_Args.length := by
  unfold Call
  rw [if_neg h]
  by_cases h2 : args.length ≠ m_Args.length
  · rw [if_pos h2]
    simp [h2]
  · rw [if_neg h2]
    constructor
    · intro hc
      exfalso
      cases hm : marshalArgs args m_Args with
      | ok l =>
        rw [hm] at hc
        simp [Except.map] at hc
      | error e =>
        rw [hm] at hc
        simp only [Except.map, Except.error.injEq] at hc
        exact marshalArgs_ne_argCount args m_Args (by rw [hm, hc])
    · intro hc
      exact absurd hc h2

/-- C7 witness: a descriptor declaring the parameters [int, pointer] at a
non-zero address, invoked with one argument, fails with the argument-count
error. -/
theorem c7_call_arg_count_witness :
    Call 1 [TypeTag.int, TypeTag.pointer] [5] = .error .argCountMismatch :=
  (c7_call_arg_count 1 [TypeTag.int, TypeTag.pointer] [5] (by decide)).mpr
    (by decide)

/-- C9 counterexample: at the concrete machine inputs A = B = 4294967295
and n = 2, the unsigned addition in IsOverlapping wraps modulo the 32-bit
word, the code returns false, yet the half-open ranges [A, A+2) and
[B, B+2) plainly intersect; so the claim that the result always equals
range intersection is false. -/
theorem c9_overflow_counterexample :
    IsOverlapping 4294967295 4294967295 2 = false ∧
    rangesIntersect 4294967295 4294967295 2 := by
  constructor
  · decide
  · exact ⟨4294967295, ⟨le_refl _, by norm_num⟩, le_refl _, by norm_num⟩

/-- C9 (amended): IsOverlapping is symmetric for all addresses and lengths;
and whenever neither A + n nor B + n overflows the 32-bit word, the result
equals whether the half-open byte ranges [A, A+n) and [B, B+n)
intersect. -/
theorem c9_overlap_amended (A B n : Nat) :
    IsOverlapping A B n = IsOverlapping B A n ∧
    (A + n < wsize → B + n < wsize →
      (IsOverlapping A B n = true ↔ rangesIntersect A B n)) := by
  constructor
  · unfold IsOverlapping
    rcases Nat.lt_trichotomy A B with h | h | h
    · rw [if_pos (Nat.le_of_lt h), if_neg (Nat.not_le.mpr h)]
    · subst h
      rfl
    · rw [if_neg (Nat.not_le.mpr h), if_pos (Nat.le_of_lt h)]
  · intro hA hB
    unfold IsOverlapping uadd
    rw [Nat.mod_eq_of_lt hA, Nat.mod_eq_of_lt hB]
    unfold rangesIntersect
    by_cases hAB : A ≤ B
    · rw [if_pos hAB]
      simp only [decide_eq_true_eq]
      constructor
      · intro hgt
        exact ⟨B, ⟨hAB, hgt⟩, le_refl B, by omega⟩
      · rintro ⟨x, ⟨h1, h2⟩, h3, h4⟩
        omega
    · rw [if_neg hAB]
      simp only [decide_eq_true_eq]
      constructor
      · intro hgt
        exact ⟨A, ⟨le_refl A, by omega⟩, by omega, hgt⟩
      · rintro ⟨x, ⟨h1, h2⟩, h3, h4⟩
        omega

/-- C9 witness: the amended theorem applied at A = 0, B = 4, n = 8, where
no overflow occurs, giving both the symmetry instance and the equivalence
with range intersection. -/
theorem c9_overlap_witness :
    (IsOverlapping 0 4 8 = IsOverlapping 4 0 8) ∧
    (IsOverlapping 0 4 8 = true ↔ rangesIntersect 0 4 8) :=
  ⟨(c9_overlap_amended 0 4 8).1,
   (c9_overlap_amended 0 4 8).2 (by norm_num [wsize]) (by norm_num [wsize])⟩

end MemoryTools
